import Mathlib

/-!
Shallow embedding of the FLAME-style UI generator backend (src/main.py) and
verification of its natural-language specification.

Python strings are modelled as Lean `String`s (lists of characters);
Python `None` on optional string fields is `Option.none`; FastAPI error
responses are modelled with `Except`.  Every definition is translated from
the source file, function by function; the few definitions that instead
follow the specification's words (for refinement comparisons) are marked
as such in their doc comments.
-/

set_option autoImplicit false

namespace Flame

/-! ### Python string primitives

Helpers mirroring the exact Python `str` operations used by the source:
`in` (substring containment), `split`, `split(sep, 1)`, `strip`,
`lower`, and the rendering of values inside f-strings (`str(None)` is the
text `"None"`).  All are structurally recursive so that the kernel can
evaluate them on concrete inputs. -/

/-- Python `\s` on ASCII input: the whitespace class used by `str.strip`. -/
def pyIsSpace (c : Char) : Bool :=
  c = ' ' || c = '\t' || c = '\n' || c = '\r' || c = '\x0b' || c = '\x0c'

/-- Does the haystack begin with the needle (first argument)? -/
def listStarts : List Char → List Char → Bool
  | [], _ => true
  | _ :: _, [] => false
  | a :: as, b :: bs => a == b && listStarts as bs

/-- Does the needle occur contiguously anywhere in the haystack?
Models Python `needle in haystack`. -/
def listHas (needle : List Char) : List Char → Bool
  | [] => listStarts needle []
  | b :: bs => listStarts needle (b :: bs) || listHas needle bs

/-- Python `sub in s`. -/
def pyIn (sub s : String) : Bool := listHas sub.data s.data

/-- Python `s.lower()` (ASCII; the keywords tested by the source are ASCII). -/
def pyLower (s : String) : String := String.mk (s.data.map Char.toLower)

/-- Split a character list on every occurrence of a separator character. -/
def splitChar (sep : Char) : List Char → List (List Char)
  | [] => [[]]
  | c :: rest =>
    match splitChar sep rest with
    | [] => [[]]
    | g :: gs => if c = sep then [] :: g :: gs else (c :: g) :: gs

/-- Python `s.split(sep)` for a one-character separator (the source only
splits on `","` and `":"`). -/
def pySplit (sep : Char) (s : String) : List String :=
  (splitChar sep s.data).map String.mk

/-- Split at the first occurrence of a separator character, or `none` when
the separator does not occur.  Models `":" in pair` + `pair.split(":", 1)`. -/
def splitFirst (sep : Char) : List Char → Option (List Char × List Char)
  | [] => none
  | c :: rest =>
    if c = sep then some ([], rest)
    else (splitFirst sep rest).map (fun p => (c :: p.1, p.2))

/-- Python `s.strip()`. -/
def pyStrip (s : String) : String :=
  String.mk (((s.data.dropWhile pyIsSpace).reverse.dropWhile pyIsSpace).reverse)

/-- Rendering of an optional string inside a Python f-string:
`str(None)` is the literal text `None`. -/
def pyOptStr : Option String → String
  | some s => s
  | none => "None"

/-- Python `x or y` for an optional string `x`: `y` when `x` is `None` or
empty, otherwise the string held by `x`. -/
def pyOrS (x : Option String) (y : String) : String :=
  match x with
  | some s => if s = "" then y else s
  | none => y

/-! ### Data model (src/main.py lines 21-63) -/

/-- The closed set of section kinds (`Section.kind` literal in the source). -/
inductive SectionKind where
  | hero
  | features
  | showcase
  | stats
  | cta
deriving DecidableEq, BEq, Repr

/-- One page block (`class Section`). -/
structure Section where
  kind : SectionKind
  title : Option String := none
  subtitle : Option String := none
  content : Option String := none
  bullets : Option (List String) := none
  accent : Option String := none
deriving DecidableEq, BEq, Repr

/-- The five-color palette dict produced by `infer_palette`. -/
structure Palette where
  primary : String
  secondary : String
  background_from : String
  background_to : String
  neon_glow : String
deriving DecidableEq, BEq, Repr

/-- The top-level generated design (`class GeneratedDesign`). -/
structure GeneratedDesign where
  prompt : String
  theme : String := "dark"
  primary : String
  secondary : String
  background_from : String
  background_to : String
  neon_glow : String
  sections : List Section
  spline_url : Option String := none
deriving DecidableEq, BEq, Repr

/-- A partial palette plus two style hints (`class StyleProfile`). -/
structure StyleProfile where
  name : String := "custom"
  primary : Option String := none
  secondary : Option String := none
  background_from : Option String := none
  background_to : Option String := none
  neon_glow : Option String := none
  radius_scale : Option String := none
  shadow_style : Option String := none
deriving DecidableEq, BEq, Repr

/-- Response of the analysis endpoint (`class StyleAnalyzeResponse`). -/
structure StyleAnalyzeResponse where
  profile : StyleProfile
  notes : String
deriving DecidableEq, BEq, Repr

/-! ### Palette inference (src/main.py lines 66-99) -/

/-- `infer_palette`: first-match keyword groups over the lower-cased prompt. -/
def infer_palette (prompt : String) : Palette :=
  let p := pyLower prompt
  if pyIn "green" p || pyIn "web3" p || pyIn "gaming" p then
    { primary := "#22c55e"
      secondary := "#14b8a6"
      background_from := "#0b1220"
      background_to := "#0b1020"
      neon_glow := "rgba(34,197,94,0.65)" }
  else if pyIn "purple" p || pyIn "ai" p || pyIn "neon" p then
    { primary := "#8b5cf6"
      secondary := "#06b6d4"
      background_from := "#0b0f1a"
      background_to := "#0b0d16"
      neon_glow := "rgba(139,92,246,0.65)" }
  else if pyIn "blue" p then
    { primary := "#60a5fa"
      secondary := "#22d3ee"
      background_from := "#0b1220"
      background_to := "#0b0f1d"
      neon_glow := "rgba(96,165,250,0.65)" }
  else
    { primary := "#22d3ee"
      secondary := "#8b5cf6"
      background_from := "#0b0f1a"
      background_to := "#0b0d16"
      neon_glow := "rgba(34,211,238,0.65)" }

/-- The group-1 palette literal (the body of the first branch of
`infer_palette`), named for use in theorem statements. -/
def palette1 : Palette :=
  { primary := "#22c55e"
    secondary := "#14b8a6"
    background_from := "#0b1220"
    background_to := "#0b1020"
    neon_glow := "rgba(34,197,94,0.65)" }

/-! ### Section composition (src/main.py lines 102-162) -/

/-- `generate_sections`: hero, optional stats (prompt mentions
"dashboard"), features, showcase, cta — all accented with the palette's
primary color. -/
def generate_sections (prompt : String) (palette : Palette) : List Section :=
  let p := pyLower prompt
  let base_accent := palette.primary
  [ { kind := .hero
      title := some "Futuristic Experience"
      subtitle := some "Describe what you want — get a production‑ready UI instantly."
      content := some "High‑fidelity design with glassmorphism, neon accents, and smooth motion."
      bullets := none
      accent := some base_accent } ]
  ++ (if pyIn "dashboard" p then
      [ { kind := .stats
          title := some "Realtime Metrics"
          subtitle := some "Key stats presented with clarity and glow."
          bullets := some ["Active Users", "Conversion", "Revenue", "Latency"]
          accent := some base_accent } ]
    else [])
  ++ [ { kind := .features
         title := some "What You Get"
         subtitle := some "Crafted components and beautiful defaults."
         bullets := some ["Neon-highlighted CTAs", "Glass cards with depth",
                          "Responsive grid layout", "Dark, cinematic theme"]
         accent := some base_accent },
       { kind := .showcase
         title := some "Visual Showcase"
         subtitle := some "Abstract shapes and depth to match the FLAME aesthetic."
         accent := some base_accent },
       { kind := .cta
         title := some "Export Instantly"
         subtitle := some "Download the full project as a zip and start building."
         accent := some base_accent } ]

/-! ### Design assembly and the override profile (src/main.py lines 165-204) -/

/-- One step of `palette.update({k: v ... if k in palette and v})`: an
override value replaces the base value only when present and non-empty. -/
def overrideField (base : String) : Option String → String
  | some v => if v = "" then base else v
  | none => base

/-- `build_design`'s palette update: apply the truthy palette-key fields of
the profile (when one is supplied) over the inferred palette. -/
def applyProfile (pal : Palette) : Option StyleProfile → Palette
  | none => pal
  | some prof =>
    { primary := overrideField pal.primary prof.primary
      secondary := overrideField pal.secondary prof.secondary
      background_from := overrideField pal.background_from prof.background_from
      background_to := overrideField pal.background_to prof.background_to
      neon_glow := overrideField pal.neon_glow prof.neon_glow }

/-- `build_design` (src/main.py lines 165-181). -/
def build_design (prompt : String) (profile : Option StyleProfile) : GeneratedDesign :=
  let palette := applyProfile (infer_palette prompt) profile
  { prompt := prompt
    theme := "dark"
    primary := palette.primary
    secondary := palette.secondary
    background_from := palette.background_from
    background_to := palette.background_to
    neon_glow := palette.neon_glow
    sections := generate_sections prompt palette
    spline_url := some "https://prod.spline.design/4Zh-Q6DWWp5yPnQf/scene.splinecode" }

/-- Set one key of the keyword dict built by the `generate` endpoint into a
`StyleProfile`; `StyleProfile(**kv)` ignores unknown keys (pydantic's
default `extra` policy) and fills declared fields from the dict. -/
def setProfileField (prof : StyleProfile) (k v : String) : StyleProfile :=
  if k = "name" then { prof with name := v }
  else if k = "primary" then { prof with primary := some v }
  else if k = "secondary" then { prof with secondary := some v }
  else if k = "background_from" then { prof with background_from := some v }
  else if k = "background_to" then { prof with background_to := some v }
  else if k = "neon_glow" then { prof with neon_glow := some v }
  else if k = "radius_scale" then { prof with radius_scale := some v }
  else if k = "shadow_style" then { prof with shadow_style := some v }
  else prof

/-- The `kv` pairs collected by the `generate` endpoint: split the token on
`","`, keep the pairs containing `":"`, split each at its first `":"`, and
strip both halves. -/
def parsePairs (tok : String) : List (String × String) :=
  (pySplit ',' tok).filterMap fun pair =>
    (splitFirst ':' pair.data).map fun p =>
      (pyStrip (String.mk p.1), pyStrip (String.mk p.2))

/-- `StyleProfile(**kv)` for the collected pairs (a Python dict keeps the
last value written for a repeated key, which the left fold reproduces). -/
def profileFromPairs (pairs : List (String × String)) : StyleProfile :=
  pairs.foldl (fun prof kv => setProfileField prof kv.1 kv.2) {}

/-- The override-token parsing performed inside the `generate` endpoint
(src/main.py lines 191-203): a falsy (empty) token yields no profile;
otherwise the token is parsed into key:value pairs.  The `try`/`except`
in the source can never fire — all collected values are strings and
pydantic ignores unknown keys — so parsing itself never fails. -/
def parseOverrideToken (tok : String) : Option StyleProfile :=
  if tok = "" then none
  else some (profileFromPairs (parsePairs tok))

/-- The `/api/generate` endpoint (src/main.py lines 189-204): an absent or
falsy `style_profile` means no override. -/
def generate (prompt : String) (style_profile : Option String) : GeneratedDesign :=
  build_design prompt (style_profile.bind parseOverrideToken)

/-! ### Static exporter (src/main.py lines 211-277)

`make_index_html` is one big f-string; it is embedded as the concatenation
of its fixed text chunks with the interpolated expressions.  Literal braces
of the CSS (written `{{`/`}}` in the Python f-string) appear below as the
escapes `\x7b`/`\x7d`. -/

/-- The `next((s.<field> for s in sections if s.kind == k), fallback)`
lookups used by both exporters: the relevant field of the first section of
the requested kind (a `None` field renders as the text `None`), or the
fallback when no section of that kind exists. -/
def nextText (ss : List Section) (k : SectionKind) (proj : Section → Option String)
    (fb : String) : String :=
  match ss.find? (fun s => s.kind == k) with
  | some s => pyOptStr (proj s)
  | none => fb

/-- Python truthiness of an optional bullets list: present and non-empty. -/
def truthyBullets : Option (List String) → Bool
  | some l => !l.isEmpty
  | none => false

/-- The bullets lookup of both exporters
(`next((s.bullets for s in sections if s.kind == "features" and s.bullets), [])`):
the bullets of the first `features` section whose bullets list is truthy
(present and non-empty), or the empty list. -/
def featuresBullets (ss : List Section) : List String :=
  match ss.find? (fun s => s.kind == SectionKind.features && truthyBullets s.bullets) with
  | some s => s.bullets.getD []
  | none => []

/-- Python `"".join(...)`. -/
def concatAll (l : List String) : String := l.foldl (· ++ ·) ""

/-- The `hero_iframe` f-string (src/main.py line 213). -/
def hero_iframe (d : GeneratedDesign) : String :=
  "<iframe src=\"" ++ pyOptStr d.spline_url ++
  "\" class=\"w-full h-[420px] rounded-3xl border border-white/10\" style=\"background:transparent\" allow=\"autoplay; fullscreen\" loading=\"lazy\"></iframe>"

/-- The `features_list` f-string join (src/main.py lines 214-217). -/
def features_list (d : GeneratedDesign) : String :=
  concatAll ((featuresBullets d.sections).map fun b =>
    "<li class=\"flex items-center gap-3\"><span class=\"w-1.5 h-1.5 rounded-full\" style=\"background:" ++
    d.primary ++ "\"></span><span class=\"text-slate-300\">" ++ b ++ "</span></li>")

/-- Fixed text of the static `index.html` up to the `--primary` CSS custom
property (src/main.py lines 219-228). -/
def htmlChunkA : String :=
  "\n<!doctype html>\n<html lang=\"en\">\n<head>\n  <meta charset=\"UTF-8\" />\n  <meta name=\"viewport\" content=\"width=device-width, initial-scale=1.0\" />\n  <title>Generated UI</title>\n  <script src=\"https://cdn.tailwindcss.com\"></script>\n  <style>\n    :root \x7b "

/-- Fixed text between the `--glow` value and the background gradient
colors (src/main.py lines 228-231). -/
def htmlChunkB : String :=
  "; \x7d\n    .glow \x7b box-shadow: 0 0 40px var(--glow), 0 0 120px var(--glow) inset; \x7d\n    .glass \x7b background: rgba(15,23,42,.55); backdrop-filter: blur(10px); border: 1px solid rgba(255,255,255,.07); \x7d\n    body \x7b background: radial-gradient(1200px 800px at 10% 10%, rgba(99,102,241,.12), transparent 40%), linear-gradient(180deg, "

/-- Fixed text from the end of the `<style>` block to the hero title
(src/main.py lines 231-244). -/
def htmlChunkC : String :=
  "); \x7d\n  </style>\n</head>\n<body class=\"text-white min-h-screen\">\n  <header class=\"max-w-7xl mx-auto px-6 py-10\">\n    <div class=\"flex items-center justify-between\">\n      <div class=\"text-xl font-semibold tracking-tight\">FLAME Generated</div>\n      <a href=\"#\" class=\"px-4 py-2 rounded-lg\" style=\"background:var(--primary)\">Get Started</a>\n    </div>\n  </header>\n  <main class=\"max-w-7xl mx-auto px-6 space-y-20\">\n    <section class=\"grid lg:grid-cols-2 gap-10 items-center\">\n      <div>\n        <h1 class=\"text-5xl font-bold leading-tight mb-4\">"

/-- Fixed text between the hero title and the hero subtitle (line 244-245). -/
def htmlChunkD : String :=
  "</h1>\n        <p class=\"text-slate-300 mb-6\">"

/-- Fixed text between the hero subtitle and the hero iframe (lines 245-248). -/
def htmlChunkE : String :=
  "</p>\n        <div class=\"flex items-center gap-4\">\n          <a class=\"px-5 py-3 rounded-xl glow\" style=\"background:var(--primary)\">Generate</a>\n          <a class=\"px-5 py-3 rounded-xl glass\">Learn more</a>\n        </div>\n      </div>\n      <div class=\"glass p-2 rounded-3xl\">"

/-- Fixed text between the hero iframe and the features title (lines 248-253). -/
def htmlChunkF : String :=
  "</div>\n    </section>\n\n    <section class=\"grid lg:grid-cols-3 gap-6\">\n      <div class=\"col-span-1 glass p-8 rounded-2xl\">\n        <h3 class=\"text-xl mb-4\">"

/-- Fixed text between the features title and the features list (lines 253-254). -/
def htmlChunkG : String :=
  "</h3>\n        <ul class=\"space-y-3\">"

/-- Fixed text between the features list and the cta title (lines 254-259). -/
def htmlChunkH : String :=
  "</ul>\n      </div>\n      <div class=\"col-span-2 grid sm:grid-cols-2 gap-6\">\n        <div class=\"h-48 rounded-2xl glass\"></div>\n        <div class=\"h-48 rounded-2xl glow\"></div>\n        <div class=\"h-48 rounded-2xl glow\"></div>\n        <div class=\"h-48 rounded-2xl glass\"></div>\n      </div>\n    </section>\n\n    <section class=\"glass rounded-2xl p-10 flex items-center justify-between\">\n      <div>\n        <h3 class=\"text-2xl font-semibold mb-2\">"

/-- Fixed text between the cta title and the cta subtitle (line 259). -/
def htmlChunkI : String :=
  "</h3>\n        <p class=\"text-slate-300\">"

/-- Fixed text from the cta subtitle to the end of the document (lines 259-263). -/
def htmlChunkJ : String :=
  "</p>\n      </div>\n      <a class=\"px-5 py-3 rounded-xl glow\" style=\"background:var(--primary)\">Download</a>\n    </section>\n  </main>\n</body>\n</html>\n"

/-- `make_index_html` (src/main.py lines 211-263). -/
def make_index_html (d : GeneratedDesign) : String :=
  htmlChunkA ++ "--primary: " ++ d.primary ++ "; --glow: " ++ d.neon_glow ++
  htmlChunkB ++ d.background_from ++ ", " ++ d.background_to ++
  htmlChunkC ++ nextText d.sections .hero (fun s => s.title) "Your Vision, Rendered" ++
  htmlChunkD ++ nextText d.sections .hero (fun s => s.subtitle) "" ++
  htmlChunkE ++ hero_iframe d ++
  htmlChunkF ++ nextText d.sections .features (fun s => s.title) "Features" ++
  htmlChunkG ++ features_list d ++
  htmlChunkH ++ nextText d.sections .cta (fun s => s.title) "Export Instantly" ++
  htmlChunkI ++ nextText d.sections .cta (fun s => s.subtitle) "" ++
  htmlChunkJ

/-- `build_zip_static` (src/main.py lines 266-277), modelled as the ordered
path-to-text mapping written into the archive. -/
def build_zip_static (d : GeneratedDesign) : List (String × String) :=
  [ ("index.html", make_index_html d),
    ("README.md",
      "Generated UI package. Open index.html in a modern browser. Tailwind loaded via CDN.") ]

/-! ### React exporter lookups (src/main.py lines 280-396)

The claims about the react target concern only how it reads section
content (lines 318-321) and that its cta region is fixed text
(lines 364-369); those lookups are embedded below.  The surrounding
`App.js` string assembly splices these values (quote-escaped) into a fixed
template. -/

/-- `title = next((s.title for s in design.sections if s.kind == 'hero'), 'Your Vision, Rendered')` (line 318). -/
def react_hero_title (d : GeneratedDesign) : String :=
  nextText d.sections .hero (fun s => s.title) "Your Vision, Rendered"

/-- `subtitle = next((s.subtitle ...), '')` (line 319). -/
def react_hero_subtitle (d : GeneratedDesign) : String :=
  nextText d.sections .hero (fun s => s.subtitle) ""

/-- `features_title = next((s.title ... if s.kind == 'features'), 'Features')` (line 320). -/
def react_features_title (d : GeneratedDesign) : String :=
  nextText d.sections .features (fun s => s.title) "Features"

/-- `bullets = next((s.bullets ... if s.kind == 'features' and s.bullets), [])` (line 321). -/
def react_features_bullets (d : GeneratedDesign) : List String :=
  featuresBullets d.sections

/-! ### Style analysis (src/main.py lines 429-492)

The two `re.findall` calls and the `re.search` call are embedded as
character-list scanners with the same matching semantics as the regular
expressions on the inputs the endpoint receives.  The scanners take a fuel
argument (the length of the remaining input bounds the number of steps) so
that they are structurally recursive and kernel-evaluable. -/

/-- A character of the regex class `[0-9a-fA-F]`. -/
def hexDigit (c : Char) : Bool :=
  c.isDigit || ('a' ≤ c && c ≤ 'f') || ('A' ≤ c && c ≤ 'F')

/-- `re.findall(r"#(?:[0-9a-fA-F]{3}){1,2}", content)`: at each `#`, greedily
match six hex digits, else three, else move on; scanning resumes after each
match (findall returns non-overlapping matches, leftmost first). -/
def scanHexAux : Nat → List Char → List String
  | 0, _ => []
  | _, [] => []
  | fuel + 1, c :: rest =>
    if c = '#' then
      if (rest.take 6).length == 6 && (rest.take 6).all hexDigit then
        String.mk ('#' :: rest.take 6) :: scanHexAux fuel (rest.drop 6)
      else if (rest.take 3).length == 3 && (rest.take 3).all hexDigit then
        String.mk ('#' :: rest.take 3) :: scanHexAux fuel (rest.drop 3)
      else scanHexAux fuel rest
    else scanHexAux fuel rest

/-- Split a character list at its first `')'`, when one exists: the regex
`[^\)]+` stops at the first closing parenthesis. -/
def splitParen : List Char → Option (List Char × List Char)
  | [] => none
  | c :: rest =>
    if c = ')' then some ([], rest)
    else (splitParen rest).map (fun p => (c :: p.1, p.2))

/-- One attempt of `rgba?\([^\)]+\)` exactly at the current position: after
`rgb(` or `rgba(` (the optional `a` is taken greedily, exactly as the regex
backtracking resolves it), the body `[^\)]+` is everything up to the first
`')'` and must be non-empty.  Returns the matched text and the remaining
input after the `')'`, or `none` when the pattern does not match here. -/
def rgbaHead : List Char → Option (String × List Char)
  | 'r' :: 'g' :: 'b' :: 'a' :: '(' :: rest =>
    (match splitParen rest with
     | some (body, rest2) =>
       if body.isEmpty then none
       else some (String.mk ('r' :: 'g' :: 'b' :: 'a' :: '(' :: (body ++ [')'])), rest2)
     | none => none)
  | 'r' :: 'g' :: 'b' :: '(' :: rest =>
    (match splitParen rest with
     | some (body, rest2) =>
       if body.isEmpty then none
       else some (String.mk ('r' :: 'g' :: 'b' :: '(' :: (body ++ [')'])), rest2)
     | none => none)
  | _ => none

/-- `re.findall(r"rgba?\([^\)]+\)", content)`: try the pattern at every
position, left to right; on failure advance one character, on success
resume after the match (findall returns non-overlapping matches). -/
def scanRgbaAux : Nat → List Char → List String
  | 0, _ => []
  | _, [] => []
  | fuel + 1, c :: rest =>
    match rgbaHead (c :: rest) with
    | some (m, rest2) => m :: scanRgbaAux fuel rest2
    | none => scanRgbaAux fuel rest

/-- `colors = hex_colors + rgba_colors` (src/main.py lines 450-452): all hex
matches first, then all rgb/rgba matches. -/
def extractColors (content : String) : List String :=
  scanHexAux content.data.length content.data ++
  scanRgbaAux content.data.length content.data

/-- The fixed allow-list of accent colors tested for `primary` (line 455). -/
def accentAllow : List String := ["#22c55e", "#8b5cf6", "#22d3ee", "#60a5fa"]

/-- `primary = next((c for c in colors if any(k in c.lower() for k in [...])), None)
or (colors[0] if colors else "#22d3ee")` (line 455). -/
def analyzePrimary (colors : List String) : String :=
  pyOrS (colors.find? fun c => accentAllow.any fun k => pyIn k (pyLower c))
    (match colors with
     | c :: _ => c
     | [] => "#22d3ee")

/-- `secondary = (colors[1] if len(colors) > 1 else None) or "#8b5cf6"` (line 456). -/
def analyzeSecondary (colors : List String) : String :=
  pyOrS colors[1]? "#8b5cf6"

/-- The `radius_keywords` dict, in declaration order (lines 459-465). -/
def radiusBuckets : List (String × List String) :=
  [ ("xs", ["2px", "3px"]),
    ("sm", ["4px", "6px"]),
    ("md", ["8px", "10px"]),
    ("lg", ["12px", "14px"]),
    ("xl", ["16px", "20px", "9999px", "999px", "1rem"]) ]

/-- The radius-scale scan (lines 466-469): start from `"md"` and overwrite
the running result for every bucket, in order, that has a keyword occurring
in the content. -/
def radiusScale (content : String) : String :=
  radiusBuckets.foldl
    (fun acc b => if b.2.any (fun k => pyIn k content) then b.1 else acc) "md"

/-- Does `p` then `x` stand at this position? The tail of `[0-9]+px`. -/
def pxHere : List Char → Bool
  | 'p' :: 'x' :: _ => true
  | _ => false

/-- After at least one digit: skip the remaining digits, then require `px`. -/
def pxAfter : List Char → Bool
  | [] => false
  | c :: rest => if c.isDigit then pxAfter rest else pxHere (c :: rest)

/-- `[0-9]+px` matching at this exact position. -/
def digitsThenPx : List Char → Bool
  | [] => false
  | c :: rest => c.isDigit && pxAfter rest

/-- The group `(0\s0\s[0-9]+px)` matching at this exact position. -/
def innerShadowAt : List Char → Bool
  | '0' :: c1 :: '0' :: c2 :: rest => pyIsSpace c1 && pyIsSpace c2 && digitsThenPx rest
  | _ => false

/-- After `box-shadow:`, the gap matched by `.*` may contain anything except
a newline before the `(0\s0\s[0-9]+px)` group begins. -/
def shadowWindow : List Char → Bool
  | [] => false
  | c :: rest => innerShadowAt (c :: rest) || (c ≠ '\n' && shadowWindow rest)

/-- `re.search(r"box-shadow:.*(0\s0\s[0-9]+px).*(inset)?", content)` as a
Boolean (lines 472-473): the trailing `.*(inset)?` always matches, so the
search succeeds exactly when some position starts with `box-shadow:`
followed — on the same line — by the spread pattern. -/
def searchBoxShadow : List Char → Bool
  | [] => false
  | c :: rest =>
    (listStarts "box-shadow:".data (c :: rest) && shadowWindow ((c :: rest).drop 11)) ||
    searchBoxShadow rest

/-- `shadow_style = "neon" if _re.search(...) else "soft"` (line 473). -/
def shadowStyle (content : String) : String :=
  if searchBoxShadow content.data then "neon" else "soft"

/-- The core of `style_analyze` (src/main.py lines 447-484): the profile
built from the decoded content.  It is total: analysis itself never fails. -/
def analyzeContent (content : String) : StyleProfile :=
  let colors := extractColors content
  { name := "analyzed"
    primary := some (analyzePrimary colors)
    secondary := some (analyzeSecondary colors)
    background_from := some "#0b0f1a"
    background_to := some "#0b0d16"
    neon_glow := some "rgba(34,211,238,0.65)"
    radius_scale := some (radiusScale content)
    shadow_style := some (shadowStyle content) }

/-- The fixed notes text returned with every analysis (lines 485-487). -/
def analysisNotes : String :=
  "Profile inferred from provided content. Use responsibly and ensure you have rights to analyze the input."

/-- The `/api/style/analyze` endpoint (src/main.py lines 429-492): an
uploaded file (modelled by its UTF-8-decoded text, decoding errors being
ignored rather than fatal) is analyzed even when empty; otherwise a truthy
`text` form field is analyzed; otherwise the request is rejected with
HTTP 400. -/
def style_analyze (file : Option String) (text : Option String) :
    Except (Nat × String) StyleAnalyzeResponse :=
  match file with
  | some content => .ok ⟨analyzeContent content, analysisNotes⟩
  | none =>
    match text with
    | some t =>
      if t ≠ "" then .ok ⟨analyzeContent t, analysisNotes⟩
      else .error (400, "Provide a file or text for analysis")
    | none => .error (400, "Provide a file or text for analysis")

/-! ### Definitions taken from the specification's words

These two definitions do **not** come from the source; they transcribe the
lookup semantics the specification claims for the exporters ("first
section of this kind, or a fixed fallback string if none exists"), for
comparison with the lookups actually implemented. -/

/-- Modelled from the spec: read a text field from the first section of the
requested kind, or use the fallback when no section of that kind exists. -/
def specFirstOfKindText (ss : List Section) (k : SectionKind)
    (proj : Section → Option String) (fb : String) : String :=
  match (ss.filter (fun s => s.kind == k)).head? with
  | some s => pyOptStr (proj s)
  | none => fb

/-- Modelled from the spec: read the bullets from the first section of kind
`features`, or use the empty fallback when no such section exists. -/
def specFeaturesBullets (ss : List Section) : List String :=
  match (ss.filter (fun s => s.kind == SectionKind.features)).head? with
  | some s => s.bullets.getD []
  | none => []

/-- Modelled from the amended reading of the bullets lookup: the bullets of
the first `features` section whose bullets list is non-empty, or the empty
list when no such section exists. -/
def specNonEmptyBullets (ss : List Section) : List String :=
  match (ss.filter (fun s => s.kind == SectionKind.features && truthyBullets s.bullets)).head? with
  | some s => s.bullets.getD []
  | none => []

/-- Substring occurrence, used to state what an emitted document contains. -/
def containsText (s sub : String) : Prop := ∃ pre post, s = pre ++ sub ++ post

/-! ## Theorems -/

/-- C2: any prompt whose lower-casing contains "green", "web3" or "gaming"
resolves to the group-1 palette literal, regardless of which later-group
keywords ("ai", "purple", "neon", "blue", ...) also occur: the keyword
groups are tested in a fixed order and the first match wins. -/
theorem green_web3_gaming_first_group (prompt : String)
    (h : (pyIn "green" (pyLower prompt) || pyIn "web3" (pyLower prompt) ||
          pyIn "gaming" (pyLower prompt)) = true) :
    infer_palette prompt = palette1 := by
  simp only [infer_palette, palette1]
  rw [if_pos h]

/-- Witness for C2 at a prompt that also contains the group-2 keyword "ai". -/
theorem green_ai_prompt_first_group : infer_palette "Green AI app" = palette1 :=
  green_web3_gaming_first_group "Green AI app" (by decide)

/-- C3: for every prompt and palette the composed sections come in the
fixed order hero, (stats), features, showcase, cta — with the stats
section, immediately after hero, present exactly when the lower-cased
prompt contains "dashboard" — so in particular the list starts with a
hero section, ends with a cta section, and has 4 or 5 elements; and every
section carries the palette's primary color as its accent. -/
theorem sections_shape (prompt : String) (palette : Palette) :
    ((generate_sections prompt palette).map Section.kind =
      if pyIn "dashboard" (pyLower prompt) then
        [SectionKind.hero, SectionKind.stats, SectionKind.features,
         SectionKind.showcase, SectionKind.cta]
      else
        [SectionKind.hero, SectionKind.features, SectionKind.showcase,
         SectionKind.cta]) ∧
    ((generate_sections prompt palette).head?.map Section.kind = some SectionKind.hero) ∧
    ((generate_sections prompt palette).getLast?.map Section.kind = some SectionKind.cta) ∧
    ((generate_sections prompt palette).any (fun s => s.kind == SectionKind.stats) =
      pyIn "dashboard" (pyLower prompt)) ∧
    ((generate_sections prompt palette).all (fun s => s.accent == some palette.primary) = true) ∧
    ((generate_sections prompt palette).length = 4 ∨
     (generate_sections prompt palette).length = 5) := by
  cases h : pyIn "dashboard" (pyLower prompt) <;>
    simp [generate_sections, h, List.getLast?] <;> decide

/-- C1 counterexample: applying the override token
`"primary:#ff0000,neon_glow:rgba(255,0,0,0.5)"` (here on the default base
palette, prompt `""`) yields `neon_glow = "rgba(255"`, not
`"rgba(255,0,0,0.5)"`: the token is split on every comma before the pairs
are examined, so a comma-bearing rgba value is truncated. -/
theorem override_rgba_truncated_cex :
    (generate "" (some "primary:#ff0000,neon_glow:rgba(255,0,0,0.5)")).neon_glow
      = "rgba(255" ∧
    (generate "" (some "primary:#ff0000,neon_glow:rgba(255,0,0,0.5)")).neon_glow
      ≠ "rgba(255,0,0,0.5)" := by
  exact ⟨rfl, by decide⟩

/-- C1 (amended): applying the override token
`"primary:#ff0000,neon_glow:rgba(255,0,0,0.5)"` to the base palette
inferred for any prompt yields `primary = "#ff0000"` and
`neon_glow = "rgba(255"` (the rgba value truncated at its first comma),
with secondary, background_from and background_to unchanged from the base
palette. -/
theorem override_token_truncates_at_commas (prompt : String) :
    (generate prompt (some "primary:#ff0000,neon_glow:rgba(255,0,0,0.5)")).primary
      = "#ff0000" ∧
    (generate prompt (some "primary:#ff0000,neon_glow:rgba(255,0,0,0.5)")).neon_glow
      = "rgba(255" ∧
    (generate prompt (some "primary:#ff0000,neon_glow:rgba(255,0,0,0.5)")).secondary
      = (infer_palette prompt).secondary ∧
    (generate prompt (some "primary:#ff0000,neon_glow:rgba(255,0,0,0.5)")).background_from
      = (infer_palette prompt).background_from ∧
    (generate prompt (some "primary:#ff0000,neon_glow:rgba(255,0,0,0.5)")).background_to
      = (infer_palette prompt).background_to := by
  exact ⟨rfl, rfl, rfl, rfl, rfl⟩

/-- C4 counterexample: the malformed token `"foo"` does not parse to null —
it parses to a `StyleProfile` with no fields set (the collected key:value
dict is empty and profile construction succeeds). -/
theorem malformed_token_not_null_cex :
    parseOverrideToken "foo" ≠ none ∧
    parseOverrideToken "foo" = some { name := "custom" } := by
  exact ⟨by decide, rfl⟩

/-- C4 (amended): override-token parsing never raises; the empty string
yields no profile, and the other malformed inputs (`"foo"`, `",,,"`,
`"primary#nocolon"`) yield a profile with no palette fields set, so in
every case design generation proceeds exactly as if no override were
supplied. -/
theorem malformed_token_no_effect (prompt : String) :
    parseOverrideToken "" = none ∧
    generate prompt (some "foo") = generate prompt none ∧
    generate prompt (some ",,,") = generate prompt none ∧
    generate prompt (some "primary#nocolon") = generate prompt none ∧
    generate prompt (some "") = generate prompt none := by
  exact ⟨rfl, rfl, rfl, rfl, rfl⟩

/-- C5: for every prompt, with or without an override token, the static
export of the generated design is an archive holding exactly `index.html`
and `README.md`, and the text of `index.html` contains the design's
primary color as the value of the `--primary` CSS custom property of the
`:root` rule. -/
theorem static_export_contents (prompt : String) (style_profile : Option String) :
    ((build_zip_static (generate prompt style_profile)).map Prod.fst =
      ["index.html", "README.md"]) ∧
    containsText (make_index_html (generate prompt style_profile))
      ("--primary: " ++ (generate prompt style_profile).primary) := by
  refine ⟨rfl, htmlChunkA, ?_, ?_⟩
  · exact "; --glow: " ++ (generate prompt style_profile).neon_glow ++
      htmlChunkB ++ (generate prompt style_profile).background_from ++ ", " ++
      (generate prompt style_profile).background_to ++
      htmlChunkC ++ nextText (generate prompt style_profile).sections .hero (fun s => s.title) "Your Vision, Rendered" ++
      htmlChunkD ++ nextText (generate prompt style_profile).sections .hero (fun s => s.subtitle) "" ++
      htmlChunkE ++ hero_iframe (generate prompt style_profile) ++
      htmlChunkF ++ nextText (generate prompt style_profile).sections .features (fun s => s.title) "Features" ++
      htmlChunkG ++ features_list (generate prompt style_profile) ++
      htmlChunkH ++ nextText (generate prompt style_profile).sections .cta (fun s => s.title) "Export Instantly" ++
      htmlChunkI ++ nextText (generate prompt style_profile).sections .cta (fun s => s.subtitle) "" ++
      htmlChunkJ
  · simp [make_index_html, String.append_assoc]

/-- `List.find?` returns the head of the filtered list: the bridge between
the source's generator-plus-`next` lookups and the specification's
"first section such that ..." phrasing. -/
theorem find?_eq_head?_of_filter {α : Type} (p : α → Bool) (l : List α) :
    l.find? p = (l.filter p).head? := by
  induction l with
  | nil => rfl
  | cons a l ih =>
    by_cases h : p a = true
    · rw [List.find?_cons_of_pos _ h, List.filter_cons_of_pos h]; rfl
    · rw [List.find?_cons_of_neg _ (by simpa using h),
        List.filter_cons_of_neg (by simpa using h), ih]

/-- C6 counterexample: a design whose first `features` section has an
empty bullets list.  The renderers' bullets lookup skips it and renders
the bullets of the second `features` section, while the claimed
"first section of that kind" semantics would render no bullets — so the
bullets piece is not resolved by first-of-kind lookup. -/
theorem bullets_lookup_cex :
    featuresBullets
      [ { kind := .features, title := some "First", bullets := some [] },
        { kind := .features, title := some "Second", bullets := some ["Speed"] } ]
      = ["Speed"] ∧
    specFeaturesBullets
      [ { kind := .features, title := some "First", bullets := some [] },
        { kind := .features, title := some "Second", bullets := some ["Speed"] } ]
      = [] ∧
    featuresBullets
      [ { kind := .features, title := some "First", bullets := some [] },
        { kind := .features, title := some "Second", bullets := some ["Speed"] } ]
      ≠ specFeaturesBullets
      [ { kind := .features, title := some "First", bullets := some [] },
        { kind := .features, title := some "Second", bullets := some ["Speed"] } ] := by
  decide

/-- C6 (amended): for every section list — including caller-supplied ones
with missing kinds, duplicate kinds, or empty bullets — every *text* piece
consumed by the static and react renderers (`nextText`, used for the hero
title/subtitle, features title and cta title/subtitle) is resolved as "the
first section of that kind, or the fixed fallback string if none exists",
so a missing kind only substitutes fallback text and never omits the
template region; the *bullets* piece, however, is resolved as "the first
features section with a non-empty bullets list, or an empty list". -/
theorem renderer_lookup_semantics (ss : List Section) (k : SectionKind)
    (proj : Section → Option String) (fb : String) :
    nextText ss k proj fb = specFirstOfKindText ss k proj fb ∧
    featuresBullets ss = specNonEmptyBullets ss := by
  constructor
  · unfold nextText specFirstOfKindText
    rw [find?_eq_head?_of_filter]
  · unfold featuresBullets specNonEmptyBullets
    rw [find?_eq_head?_of_filter]

/-- A string built from a non-empty character list is not the empty string. -/
theorem mk_cons_ne_empty (c : Char) (xs : List Char) : String.mk (c :: xs) ≠ "" := by
  intro h
  have h2 := congrArg String.data h
  simp at h2

/-- Every hex match starts with the character `#`. -/
theorem scanHexAux_mem (fuel : Nat) :
    ∀ (l : List Char) (s : String), s ∈ scanHexAux fuel l → ∃ xs, s = String.mk ('#' :: xs) := by
  induction fuel with
  | zero => intro l s h; simp [scanHexAux] at h
  | succ n ih =>
    intro l s h
    cases l with
    | nil => simp [scanHexAux] at h
    | cons c rest =>
      simp only [scanHexAux] at h
      split at h
      · split at h
        · rcases List.mem_cons.mp h with h1 | h1
          · exact ⟨_, h1⟩
          · exact ih _ _ h1
        · split at h
          · rcases List.mem_cons.mp h with h1 | h1
            · exact ⟨_, h1⟩
            · exact ih _ _ h1
          · exact ih _ _ h
      · exact ih _ _ h

/-- Every rgb/rgba match starts with the character `r`. -/
theorem rgbaHead_some {l : List Char} {m : String} {r2 : List Char}
    (h : rgbaHead l = some (m, r2)) : ∃ xs, m = String.mk ('r' :: xs) := by
  unfold rgbaHead at h
  split at h
  · split at h
    · split at h
      · exact absurd h (by simp)
      · exact ⟨_, (congrArg Prod.fst (Option.some.inj h)).symm⟩
    · exact absurd h (by simp)
  · split at h
    · split at h
      · exact absurd h (by simp)
      · exact ⟨_, (congrArg Prod.fst (Option.some.inj h)).symm⟩
    · exact absurd h (by simp)
  · exact absurd h (by simp)

/-- Every element of the rgba scan starts with the character `r`. -/
theorem scanRgbaAux_mem (fuel : Nat) :
    ∀ (l : List Char) (s : String), s ∈ scanRgbaAux fuel l → ∃ xs, s = String.mk ('r' :: xs) := by
  induction fuel with
  | zero => intro l s h; simp [scanRgbaAux] at h
  | succ n ih =>
    intro l s h
    cases l with
    | nil => simp [scanRgbaAux] at h
    | cons c rest =>
      simp only [scanRgbaAux] at h
      split at h
      · next m rest2 heq =>
        rcases List.mem_cons.mp h with h1 | h1
        · rcases rgbaHead_some heq with ⟨xs, hx⟩
          exact ⟨xs, h1 ▸ hx⟩
        · exact ih _ _ h1
      · exact ih _ _ h

/-- No color-literal match produced by the analysis scan is empty. -/
theorem extractColors_ne_empty (content : String) (s : String)
    (h : s ∈ extractColors content) : s ≠ "" := by
  rcases List.mem_append.mp h with h1 | h1
  · rcases scanHexAux_mem _ _ _ h1 with ⟨xs, rfl⟩
    exact mk_cons_ne_empty _ _
  · rcases scanRgbaAux_mem _ _ _ h1 with ⟨xs, rfl⟩
    exact mk_cons_ne_empty _ _

/-- C7 counterexample: for content whose two color matches are the equal
literals `#ff0000`, the analyzed secondary *is* that repeated literal — it
is `colors[1]`, not the second distinct match and not the default. -/
theorem secondary_repeated_literal_cex :
    extractColors "#ff0000 #ff0000" = ["#ff0000", "#ff0000"] ∧
    analyzeSecondary (extractColors "#ff0000 #ff0000") = "#ff0000" ∧
    analyzeSecondary (extractColors "#ff0000 #ff0000") ≠ "#8b5cf6" := by
  exact ⟨rfl, rfl, by decide⟩

/-- C7 (amended): the analyzed `secondary` equals the second color-literal
match (in scan order: all hex matches, then all rgb/rgba matches) whenever
at least two matches exist — even when it repeats the first match — and
the fixed default `"#8b5cf6"` otherwise. -/
theorem secondary_is_second_match (content : String) :
    analyzeSecondary (extractColors content) =
      match extractColors content with
      | _ :: c1 :: _ => c1
      | _ => "#8b5cf6" := by
  rcases hc : extractColors content with _ | ⟨c0, _ | ⟨c1, rest⟩⟩
  · simp [analyzeSecondary, pyOrS]
  · simp [analyzeSecondary, pyOrS]
  · have h1 : c1 ≠ "" :=
      extractColors_ne_empty content c1
        (by rw [hc]; exact List.mem_cons_of_mem _ (List.mem_cons_self _ _))
    simp [analyzeSecondary, pyOrS, h1]

/-- C8: analyzing the empty string succeeds (analysis is a total function)
and returns the all-defaults profile: primary `#22d3ee`, secondary
`#8b5cf6`, radius_scale `md`, shadow_style `soft`, name `analyzed`. -/
theorem analyze_empty_defaults :
    analyzeContent "" =
      { name := "analyzed"
        primary := some "#22d3ee"
        secondary := some "#8b5cf6"
        background_from := some "#0b0f1a"
        background_to := some "#0b0d16"
        neon_glow := some "rgba(34,211,238,0.65)"
        radius_scale := some "md"
        shadow_style := some "soft" } := by
  rfl

/-- A left fold that overwrites its accumulator for every list element
satisfying a predicate ends at the name of the last such element. -/
theorem foldl_overwrite_getLast (content : String) (bs : List (String × List String))
    (init : String) :
    bs.foldl (fun acc b => if b.2.any (fun k => pyIn k content) then b.1 else acc) init =
      match (bs.filter (fun b => b.2.any (fun k => pyIn k content))).getLast? with
      | some b => b.1
      | none => init := by
  induction bs generalizing init with
  | nil => rfl
  | cons b rest ih =>
    simp only [List.foldl_cons]
    by_cases hb : (b.2.any fun k => pyIn k content) = true
    · rw [if_pos hb,
        List.filter_cons_of_pos (p := fun x : String × List String => x.2.any fun k => pyIn k content) hb, ih]
      cases hfl : rest.filter (fun b => b.2.any fun k => pyIn k content) with
      | nil => simp
      | cons x xs =>
        rw [List.getLast?_cons_cons]
        cases hgl : (x :: xs).getLast? with
        | none => exact absurd hgl (by simp)
        | some y => rfl
    · rw [if_neg hb,
        List.filter_cons_of_neg (p := fun x : String × List String => x.2.any fun k => pyIn k content) (by simpa using hb), ih]

/-- C9: the radius scale is the name of the last bucket, in the fixed
declaration order xs, sm, md, lg, xl, with at least one keyword occurring
in the content — the scan overwrites a running result bucket by bucket —
and `"md"` when no bucket keyword occurs; in particular content containing
both `"2px"` and `"16px"` yields `"xl"`. -/
theorem radius_last_bucket_wins (content : String) :
    radiusScale content =
      (match (radiusBuckets.filter fun b => b.2.any fun k => pyIn k content).getLast? with
       | some b => b.1
       | none => "md") ∧
    radiusScale "2px 16px" = "xl" := by
  exact ⟨foldl_overwrite_getLast content radiusBuckets "md", by decide⟩

/-- C10: at the analysis endpoint, empty text with no upload is rejected
with the HTTP 400 validation error, while an uploaded file whose decoded
content is empty is accepted and analyzed to the all-defaults profile —
empty text and an empty upload are handled differently. -/
theorem empty_text_vs_empty_file :
    style_analyze none (some "") =
      .error (400, "Provide a file or text for analysis") ∧
    style_analyze (some "") none =
      .ok ⟨{ name := "analyzed"
             primary := some "#22d3ee"
             secondary := some "#8b5cf6"
             background_from := some "#0b0f1a"
             background_to := some "#0b0d16"
             neon_glow := some "rgba(34,211,238,0.65)"
             radius_scale := some "md"
             shadow_style := some "soft" }, analysisNotes⟩ := by
  exact ⟨rfl, rfl⟩

end Flame
